import Mathlib

/-!
Verification of the ITU-R color encoding core (`src/palette/src/encoding/itu.rs`
together with the trait contracts of `src/palette/src/yuv/mod.rs`).

The Rust code is generic over an abstract floating type with arithmetic,
comparison and `powf`; we embed it over the exact reals `ℝ`, with `powf`
becoming `Real.rpow`. Decimal literals are carried verbatim from the source.
-/

namespace Palette

/-- Embedding of `Yxy::with_wp(x, y, luma)`: a chromaticity pair plus a
luminance component, as produced by the `Primaries` impls. -/
structure Yxy where
  x : ℝ
  y : ℝ
  luma : ℝ

/-- The two transfer-function policy types of `itu.rs`. -/
inductive TransferPolicy
  | Transfer601And709
  | Transfer2020
deriving DecidableEq

/-- The three difference-function policy types of `itu.rs`. -/
inductive DifferencePolicy
  | DifferenceFn601
  | DifferenceFn709
  | DifferenceFn2020
deriving DecidableEq

/-- The four named standard descriptor types of `itu.rs`. -/
inductive Standard
  | BT601_525
  | BT601_625
  | BT709
  | BT2020
deriving DecidableEq

/-- White point tags. `D65` is the one bound by `itu.rs`; the other tags stand
for the remaining members of the external `white_point` module so that the
binding carries information. -/
inductive WhitePointTag
  | D65
  | D50
  | E
deriving DecidableEq

/-- `const BT601_LUMINANCE: (f64, f64, f64) = (0.2990, 0.5870, 0.1140);` -/
def BT601_LUMINANCE : ℝ × ℝ × ℝ := (0.2990, 0.5870, 0.1140)

/-- `const BT601_BLUE_NORM: f64 = 1.772;` -/
def BT601_BLUE_NORM : ℝ := 1.772

/-- `const BT601_RED_NORM: f64 = 1.402;` -/
def BT601_RED_NORM : ℝ := 1.402

/-- `const BT709_LUMINANCE: (f64, f64, f64) = (0.212656, 0.715158, 0.072186);` -/
def BT709_LUMINANCE : ℝ × ℝ × ℝ := (0.212656, 0.715158, 0.072186)

/-- `const BT709_WEIGHTS: (f64, f64, f64) = (0.2126, 0.7152, 0.07212);` -/
def BT709_WEIGHTS : ℝ × ℝ × ℝ := (0.2126, 0.7152, 0.07212)

/-- `const BT709_BLUE_NORM: f64 = 1.8556;` -/
def BT709_BLUE_NORM : ℝ := 1.8556

/-- `const BT709_RED_NORM: f64 = 1.5748;` -/
def BT709_RED_NORM : ℝ := 1.5748

/-- `const BT2020_WEIGHTS: (f64, f64, f64) = (0.2627, 0.6780, 0.0593);` -/
def BT2020_WEIGHTS : ℝ × ℝ × ℝ := (0.2627, 0.6780, 0.0593)

/-- `const BT2020_BLUE_NORM: f64 = 1.8814;` -/
def BT2020_BLUE_NORM : ℝ := 1.8814

/-- `const BT2020_RED_NORM: f64 = 1.4746;` -/
def BT2020_RED_NORM : ℝ := 1.4746

/-- `impl TransferFn for Transfer601And709`, `fn into_linear`. -/
noncomputable def Transfer601And709.into_linear (x : ℝ) : ℝ :=
  if x ≤ 0.0091 then x / 4.500 else ((x + 0.099) / 1.099) ^ ((1 : ℝ) / 0.45)

/-- `impl TransferFn for Transfer601And709`, `fn from_linear`. -/
noncomputable def Transfer601And709.from_linear (x : ℝ) : ℝ :=
  if x ≤ 0.0018 then x * 4.500 else x ^ (0.45 : ℝ) * 1.099 - 0.099

/-- `impl TransferFn for Transfer2020`, `fn into_linear` (with the local
`alpha`/`beta` bindings inlined). -/
noncomputable def Transfer2020.into_linear (x : ℝ) : ℝ :=
  if x < (0.018053968510807 : ℝ) * 4.500 then x / 4.500
  else ((x + 1.09929682680944 - 1) / 1.09929682680944) ^ ((1 : ℝ) / 0.45)

/-- `impl TransferFn for Transfer2020`, `fn from_linear` (with the local
`alpha`/`beta` bindings inlined). -/
noncomputable def Transfer2020.from_linear (x : ℝ) : ℝ :=
  if x < (0.018053968510807 : ℝ) then x * 4.5
  else x ^ (0.45 : ℝ) * 1.09929682680944 - (1.09929682680944 - 1)

/-- Dispatch of `TransferFn::into_linear` over the policy types. -/
noncomputable def TransferFn.into_linear : TransferPolicy → ℝ → ℝ
  | .Transfer601And709 => Transfer601And709.into_linear
  | .Transfer2020 => Transfer2020.into_linear

/-- Dispatch of `TransferFn::from_linear` over the policy types. -/
noncomputable def TransferFn.from_linear : TransferPolicy → ℝ → ℝ
  | .Transfer601And709 => Transfer601And709.from_linear
  | .Transfer2020 => Transfer2020.from_linear

/-- `DifferenceFn::luminance` for each policy type. -/
def DifferenceFn.luminance : DifferencePolicy → ℝ × ℝ × ℝ
  | .DifferenceFn601 => BT601_LUMINANCE
  | .DifferenceFn709 => BT709_WEIGHTS
  | .DifferenceFn2020 => BT2020_WEIGHTS

/-- The blue-norm divisor each difference policy divides/multiplies by. -/
def DifferenceFn.blueNorm : DifferencePolicy → ℝ
  | .DifferenceFn601 => BT601_BLUE_NORM
  | .DifferenceFn709 => BT709_BLUE_NORM
  | .DifferenceFn2020 => BT2020_BLUE_NORM

/-- The red-norm divisor each difference policy divides/multiplies by. -/
def DifferenceFn.redNorm : DifferencePolicy → ℝ
  | .DifferenceFn601 => BT601_RED_NORM
  | .DifferenceFn709 => BT709_RED_NORM
  | .DifferenceFn2020 => BT2020_RED_NORM

/-- `DifferenceFn::norm_blue`: `denorm / cast(<BLUE_NORM>)`. -/
noncomputable def DifferenceFn.norm_blue (d : DifferencePolicy) (denorm : ℝ) : ℝ :=
  denorm / DifferenceFn.blueNorm d

/-- `DifferenceFn::denorm_blue`: `norm * cast(<BLUE_NORM>)`. -/
noncomputable def DifferenceFn.denorm_blue (d : DifferencePolicy) (norm : ℝ) : ℝ :=
  norm * DifferenceFn.blueNorm d

/-- `DifferenceFn::norm_red`: `denorm / cast(<RED_NORM>)`. -/
noncomputable def DifferenceFn.norm_red (d : DifferencePolicy) (denorm : ℝ) : ℝ :=
  denorm / DifferenceFn.redNorm d

/-- `DifferenceFn::denorm_red`: `norm * cast(<RED_NORM>)`. -/
noncomputable def DifferenceFn.denorm_red (d : DifferencePolicy) (norm : ℝ) : ℝ :=
  norm * DifferenceFn.redNorm d

/-- `impl Primaries for …`, `fn red`, for each standard. -/
def Primaries.red : Standard → Yxy
  | .BT601_525 => ⟨0.6300, 0.3400, BT601_LUMINANCE.1⟩
  | .BT601_625 => ⟨0.6400, 0.3300, BT601_LUMINANCE.1⟩
  | .BT709 => ⟨0.6400, 0.3300, BT709_LUMINANCE.1⟩
  | .BT2020 => ⟨0.708, 0.292, BT2020_WEIGHTS.1⟩

/-- `impl Primaries for …`, `fn green`, for each standard. -/
def Primaries.green : Standard → Yxy
  | .BT601_525 => ⟨0.3100, 0.5950, BT601_LUMINANCE.2.1⟩
  | .BT601_625 => ⟨0.2900, 0.6000, BT601_LUMINANCE.2.1⟩
  | .BT709 => ⟨0.3000, 0.6000, BT709_LUMINANCE.2.1⟩
  | .BT2020 => ⟨0.170, 0.797, BT2020_WEIGHTS.2.1⟩

/-- `impl Primaries for …`, `fn blue`, for each standard. -/
def Primaries.blue : Standard → Yxy
  | .BT601_525 => ⟨0.1550, 0.0700, BT601_LUMINANCE.2.2⟩
  | .BT601_625 => ⟨0.1500, 0.0600, BT601_LUMINANCE.2.2⟩
  | .BT709 => ⟨0.1500, 0.0600, BT709_LUMINANCE.2.2⟩
  | .BT2020 => ⟨0.131, 0.046, BT2020_WEIGHTS.2.2⟩

/-- `impl RgbSpace for …`, associated `type WhitePoint`. -/
def RgbSpace.whitePoint : Standard → WhitePointTag
  | .BT601_525 => .D65
  | .BT601_625 => .D65
  | .BT709 => .D65
  | .BT2020 => .D65

/-- `impl RgbStandard for …`, associated `type TransferFn`. -/
def RgbStandard.transferFn : Standard → TransferPolicy
  | .BT601_525 => .Transfer601And709
  | .BT601_625 => .Transfer601And709
  | .BT709 => .Transfer601And709
  | .BT2020 => .Transfer2020

/-- `impl LumaStandard for …`, associated `type WhitePoint`. -/
def LumaStandard.whitePoint : Standard → WhitePointTag
  | .BT601_525 => .D65
  | .BT601_625 => .D65
  | .BT709 => .D65
  | .BT2020 => .D65

/-- `impl LumaStandard for …`, associated `type TransferFn`. -/
def LumaStandard.transferFn : Standard → TransferPolicy
  | .BT601_525 => .Transfer601And709
  | .BT601_625 => .Transfer601And709
  | .BT709 => .Transfer601And709
  | .BT2020 => .Transfer2020

/-- `impl YuvStandard for …`, associated `type TransferFn`. -/
def YuvStandard.transferFn : Standard → TransferPolicy
  | .BT601_525 => .Transfer601And709
  | .BT601_625 => .Transfer601And709
  | .BT709 => .Transfer601And709
  | .BT2020 => .Transfer2020

/-- `impl YuvStandard for …`, associated `type DifferenceFn`. -/
def YuvStandard.differenceFn : Standard → DifferencePolicy
  | .BT601_525 => .DifferenceFn601
  | .BT601_625 => .DifferenceFn601
  | .BT709 => .DifferenceFn709
  | .BT2020 => .DifferenceFn2020

/-- Spec-side comparator, from the spec's words (§4.2): shared 601/709
forward, "if x ≤ 0.0018 then y = 4.5·x, else y = 1.099·x^0.45 − 0.099". -/
noncomputable def SpecFormula.forward601And709 (x : ℝ) : ℝ :=
  if x ≤ 0.0018 then 4.5 * x else 1.099 * x ^ (0.45 : ℝ) - 0.099

/-- Spec-side comparator (§4.2): shared 601/709 inverse, "if y ≤ 0.0091 then
x = y/4.5, else x = ((y+0.099)/1.099)^(1/0.45)". -/
noncomputable def SpecFormula.inverse601And709 (y : ℝ) : ℝ :=
  if y ≤ 0.0091 then y / 4.5 else ((y + 0.099) / 1.099) ^ ((1 : ℝ) / 0.45)

/-- Spec-side comparator (§4.2): BT2020 forward, "if x < β then y = 4.5·x,
else y = α·x^0.45 − (α−1), α = 1.09929682680944, β = 0.018053968510807". -/
noncomputable def SpecFormula.forward2020 (x : ℝ) : ℝ :=
  if x < 0.018053968510807 then 4.5 * x
  else 1.09929682680944 * x ^ (0.45 : ℝ) - (1.09929682680944 - 1)

/-- Spec-side comparator (§4.2): BT2020 inverse, "if y < 4.5β then x = y/4.5,
else x = ((y+α−1)/α)^(1/0.45)". -/
noncomputable def SpecFormula.inverse2020 (y : ℝ) : ℝ :=
  if y < 4.5 * 0.018053968510807 then y / 4.5
  else ((y + 1.09929682680944 - 1) / 1.09929682680944) ^ ((1 : ℝ) / 0.45)

/-- C2: every transfer policy computes exactly the spec's piecewise formula,
with the breakpoint literals as stated. -/
theorem transfer_functions_match_spec_formulas :
    (∀ x : ℝ, Transfer601And709.from_linear x = SpecFormula.forward601And709 x) ∧
    (∀ y : ℝ, Transfer601And709.into_linear y = SpecFormula.inverse601And709 y) ∧
    (∀ x : ℝ, Transfer2020.from_linear x = SpecFormula.forward2020 x) ∧
    (∀ y : ℝ, Transfer2020.into_linear y = SpecFormula.inverse2020 y) := by
  refine ⟨fun x => ?_, fun y => ?_, fun x => ?_, fun y => ?_⟩
  · unfold Transfer601And709.from_linear SpecFormula.forward601And709
    split_ifs with h
    · ring
    · generalize x ^ (0.45 : ℝ) = t
      ring
  · unfold Transfer601And709.into_linear SpecFormula.inverse601And709
    split_ifs with h
    · norm_num
    · rfl
  · unfold Transfer2020.from_linear SpecFormula.forward2020
    split_ifs with h
    · ring
    · generalize x ^ (0.45 : ℝ) = t
      ring
  · unfold Transfer2020.into_linear SpecFormula.inverse2020
    rw [show (0.018053968510807 : ℝ) * 4.500 = 4.5 * 0.018053968510807 by ring]
    split_ifs with h
    · norm_num
    · rfl

/-- C5: for every difference policy, denormalizing a normalized sample gives
the sample back exactly, for both the blue and the red pair. -/
theorem difference_norm_denorm_roundtrip :
    ∀ (d : DifferencePolicy) (x : ℝ),
      DifferenceFn.denorm_blue d (DifferenceFn.norm_blue d x) = x ∧
      DifferenceFn.denorm_red d (DifferenceFn.norm_red d x) = x := by
  intro d x
  cases d <;>
    simp only [DifferenceFn.denorm_blue, DifferenceFn.norm_blue, DifferenceFn.denorm_red,
      DifferenceFn.norm_red, DifferenceFn.blueNorm, DifferenceFn.redNorm, BT601_BLUE_NORM,
      BT601_RED_NORM, BT709_BLUE_NORM, BT709_RED_NORM, BT2020_BLUE_NORM, BT2020_RED_NORM] <;>
    constructor <;>
    rw [div_mul_cancel₀] <;> norm_num

/-- C6: the per-policy luminance weights and blue/red norm divisors are
exactly the literals the spec lists. -/
theorem difference_constants_literal_fidelity :
    DifferenceFn.luminance .DifferenceFn601 = (0.2990, 0.5870, 0.1140) ∧
    DifferenceFn.blueNorm .DifferenceFn601 = 1.772 ∧
    DifferenceFn.redNorm .DifferenceFn601 = 1.402 ∧
    DifferenceFn.luminance .DifferenceFn709 = (0.2126, 0.7152, 0.07212) ∧
    DifferenceFn.blueNorm .DifferenceFn709 = 1.8556 ∧
    DifferenceFn.redNorm .DifferenceFn709 = 1.5748 ∧
    DifferenceFn.luminance .DifferenceFn2020 = (0.2627, 0.6780, 0.0593) ∧
    DifferenceFn.blueNorm .DifferenceFn2020 = 1.8814 ∧
    DifferenceFn.redNorm .DifferenceFn2020 = 1.4746 :=
  ⟨rfl, rfl, rfl, rfl, rfl, rfl, rfl, rfl, rfl⟩

/-- C7 counterexample: for BT709 the red primary's luminance component
(0.212656, the exact derived value) is not the red difference-luminance
weight (0.2126, the spec-compliance value), refuting the claim that they
match for every named standard. -/
theorem bt709_primary_luma_ne_difference_weight :
    (Primaries.red .BT709).luma ≠
      (DifferenceFn.luminance (YuvStandard.differenceFn .BT709)).1 := by
  simp only [Primaries.red, YuvStandard.differenceFn, DifferenceFn.luminance,
    BT709_LUMINANCE, BT709_WEIGHTS]
  norm_num

/-- C7 amended: for BT601_525, BT601_625 and BT2020 the primaries' luminance
components equal the difference-luminance weights componentwise, but for
BT709 all three components differ (primaries use the exact derived
luminances, the difference policy the spec-compliance weights). -/
theorem primaries_luma_vs_difference_weights :
    (Primaries.red .BT601_525).luma =
      (DifferenceFn.luminance (YuvStandard.differenceFn .BT601_525)).1 ∧
    (Primaries.green .BT601_525).luma =
      (DifferenceFn.luminance (YuvStandard.differenceFn .BT601_525)).2.1 ∧
    (Primaries.blue .BT601_525).luma =
      (DifferenceFn.luminance (YuvStandard.differenceFn .BT601_525)).2.2 ∧
    (Primaries.red .BT601_625).luma =
      (DifferenceFn.luminance (YuvStandard.differenceFn .BT601_625)).1 ∧
    (Primaries.green .BT601_625).luma =
      (DifferenceFn.luminance (YuvStandard.differenceFn .BT601_625)).2.1 ∧
    (Primaries.blue .BT601_625).luma =
      (DifferenceFn.luminance (YuvStandard.differenceFn .BT601_625)).2.2 ∧
    (Primaries.red .BT2020).luma =
      (DifferenceFn.luminance (YuvStandard.differenceFn .BT2020)).1 ∧
    (Primaries.green .BT2020).luma =
      (DifferenceFn.luminance (YuvStandard.differenceFn .BT2020)).2.1 ∧
    (Primaries.blue .BT2020).luma =
      (DifferenceFn.luminance (YuvStandard.differenceFn .BT2020)).2.2 ∧
    (Primaries.red .BT709).luma ≠
      (DifferenceFn.luminance (YuvStandard.differenceFn .BT709)).1 ∧
    (Primaries.green .BT709).luma ≠
      (DifferenceFn.luminance (YuvStandard.differenceFn .BT709)).2.1 ∧
    (Primaries.blue .BT709).luma ≠
      (DifferenceFn.luminance (YuvStandard.differenceFn .BT709)).2.2 := by
  refine ⟨rfl, rfl, rfl, rfl, rfl, rfl, rfl, rfl, rfl, ?_, ?_, ?_⟩ <;>
    simp only [Primaries.red, Primaries.green, Primaries.blue, YuvStandard.differenceFn,
      DifferenceFn.luminance, BT709_LUMINANCE, BT709_WEIGHTS] <;>
    norm_num

/-- C8: every difference policy's luminance weights are componentwise
non-negative and sum to at most 1. -/
theorem luminance_weights_nonneg_sum_le_one :
    ∀ d : DifferencePolicy,
      0 ≤ (DifferenceFn.luminance d).1 ∧
      0 ≤ (DifferenceFn.luminance d).2.1 ∧
      0 ≤ (DifferenceFn.luminance d).2.2 ∧
      (DifferenceFn.luminance d).1 + (DifferenceFn.luminance d).2.1 +
        (DifferenceFn.luminance d).2.2 ≤ 1 := by
  intro d
  cases d <;>
    simp only [DifferenceFn.luminance, BT601_LUMINANCE, BT709_WEIGHTS, BT2020_WEIGHTS] <;>
    norm_num

/-- C9: BT601_525 and BT601_625 bind the same transfer and difference
policies, so all transfer, luminance and chroma operations agree pointwise;
their primaries' chromaticity coordinates differ. -/
theorem bt601_variants_share_policies :
    YuvStandard.transferFn .BT601_525 = YuvStandard.transferFn .BT601_625 ∧
    YuvStandard.differenceFn .BT601_525 = YuvStandard.differenceFn .BT601_625 ∧
    (∀ x : ℝ, TransferFn.from_linear (YuvStandard.transferFn .BT601_525) x =
      TransferFn.from_linear (YuvStandard.transferFn .BT601_625) x) ∧
    (∀ y : ℝ, TransferFn.into_linear (YuvStandard.transferFn .BT601_525) y =
      TransferFn.into_linear (YuvStandard.transferFn .BT601_625) y) ∧
    DifferenceFn.luminance (YuvStandard.differenceFn .BT601_525) =
      DifferenceFn.luminance (YuvStandard.differenceFn .BT601_625) ∧
    (∀ x : ℝ,
      DifferenceFn.norm_blue (YuvStandard.differenceFn .BT601_525) x =
        DifferenceFn.norm_blue (YuvStandard.differenceFn .BT601_625) x ∧
      DifferenceFn.denorm_blue (YuvStandard.differenceFn .BT601_525) x =
        DifferenceFn.denorm_blue (YuvStandard.differenceFn .BT601_625) x ∧
      DifferenceFn.norm_red (YuvStandard.differenceFn .BT601_525) x =
        DifferenceFn.norm_red (YuvStandard.differenceFn .BT601_625) x ∧
      DifferenceFn.denorm_red (YuvStandard.differenceFn .BT601_525) x =
        DifferenceFn.denorm_red (YuvStandard.differenceFn .BT601_625) x) ∧
    (Primaries.red .BT601_525).x ≠ (Primaries.red .BT601_625).x ∧
    (Primaries.green .BT601_525).x ≠ (Primaries.green .BT601_625).x ∧
    (Primaries.blue .BT601_525).x ≠ (Primaries.blue .BT601_625).x := by
  refine ⟨rfl, rfl, fun x => rfl, fun y => rfl, rfl,
    fun x => ⟨rfl, rfl, rfl, rfl⟩, ?_, ?_, ?_⟩ <;>
    simp only [Primaries.red, Primaries.green, Primaries.blue] <;>
    norm_num

/-- Bounding tool: `x ^ 0.45 < c` follows from the rational inequality
`x ^ 9 < c ^ 20`, since `0.45 = 9/20`. -/
lemma rpow_045_lt_of_pow_lt {x c : ℝ} (hx : 0 ≤ x) (hc : 0 < c)
    (h : x ^ (9 : ℕ) < c ^ (20 : ℕ)) : x ^ (0.45 : ℝ) < c := by
  have key : (x ^ (0.45 : ℝ)) ^ (20 : ℕ) = x ^ (9 : ℕ) := by
    rw [← Real.rpow_natCast (x ^ (0.45 : ℝ)) 20, ← Real.rpow_mul hx,
      show (0.45 : ℝ) * ((20 : ℕ) : ℝ) = ((9 : ℕ) : ℝ) by norm_num,
      Real.rpow_natCast]
  refine lt_of_pow_lt_pow_left₀ 20 hc.le ?_
  rw [key]
  exact h

/-- The 601/709 forward function at the breakpoint itself takes the linear
branch and yields `0.0018 * 4.5 = 0.0081`. -/
lemma from_linear_601709_at_breakpoint :
    Transfer601And709.from_linear 0.0018 = 0.0081 := by
  unfold Transfer601And709.from_linear
  rw [if_pos (by norm_num)]
  norm_num

/-- Just above the breakpoint the 601/709 forward function takes the
power-law branch and drops below `-0.03`. -/
lemma from_linear_601709_above_breakpoint :
    Transfer601And709.from_linear 0.0019 < -0.03 := by
  unfold Transfer601And709.from_linear
  rw [if_neg (by norm_num)]
  have hb : (0.0019 : ℝ) ^ (0.45 : ℝ) < 69 / 1099 :=
    rpow_045_lt_of_pow_lt (by norm_num) (by norm_num) (by norm_num)
  nlinarith [hb]

/-- C1 evidence: at the linear sample `x = 0.002` (inside `[0,1]`), the
601/709 forward function takes its power-law branch and returns a negative
encoded value, so the round trip lands below zero, more than `1e-6`
(indeed more than `0.002`) away from `x`. -/
theorem roundtrip_601709_fails_at_0002 :
    Transfer601And709.into_linear (Transfer601And709.from_linear 0.002) < 0 ∧
    |Transfer601And709.into_linear (Transfer601And709.from_linear 0.002) - 0.002| >
      1e-6 := by
  have hb : (0.002 : ℝ) ^ (0.45 : ℝ) < 99 / 1099 :=
    rpow_045_lt_of_pow_lt (by norm_num) (by norm_num) (by norm_num)
  have h1 : Transfer601And709.from_linear 0.002 =
      (0.002 : ℝ) ^ (0.45 : ℝ) * 1.099 - 0.099 := by
    unfold Transfer601And709.from_linear
    rw [if_neg (by norm_num)]
  have hneg : Transfer601And709.from_linear 0.002 < 0 := by
    rw [h1]
    nlinarith [hb]
  have h2 : Transfer601And709.into_linear (Transfer601And709.from_linear 0.002) =
      Transfer601And709.from_linear 0.002 / 4.500 := by
    unfold Transfer601And709.into_linear
    rw [if_pos (by linarith)]
  have h3 : Transfer601And709.into_linear (Transfer601And709.from_linear 0.002) < 0 := by
    rw [h2]
    exact div_neg_of_neg_of_pos hneg (by norm_num)
  refine ⟨h3, ?_⟩
  rw [abs_of_neg (by linarith)]
  linarith

/-- C3 evidence: the 601/709 forward function jumps at its breakpoint
`0.0018`: the linear side gives `0.0081` there while the power-law side gives
less than `-0.03` at `0.0019`, a gap above `0.038` over an input step of
`0.0001`. -/
theorem forward_601709_discontinuous_at_breakpoint :
    Transfer601And709.from_linear 0.0018 = 0.0081 ∧
    Transfer601And709.from_linear 0.0019 < -0.03 ∧
    |Transfer601And709.from_linear 0.0019 - Transfer601And709.from_linear 0.0018| >
      0.038 := by
  refine ⟨from_linear_601709_at_breakpoint, from_linear_601709_above_breakpoint, ?_⟩
  rw [from_linear_601709_at_breakpoint,
    abs_of_neg (by linarith [from_linear_601709_above_breakpoint])]
  linarith [from_linear_601709_above_breakpoint]

/-- C4 evidence: the 601/709 forward function is not monotonically
increasing: `0.0018 < 0.0019` but the encoded value drops from `0.0081` to
below `-0.03` across the breakpoint. -/
theorem forward_601709_not_monotone :
    (0.0018 : ℝ) < 0.0019 ∧
    Transfer601And709.from_linear 0.0019 < Transfer601And709.from_linear 0.0018 := by
  refine ⟨by norm_num, ?_⟩
  rw [from_linear_601709_at_breakpoint]
  linarith [from_linear_601709_above_breakpoint]

/-- C10: every named standard binds D65 as the white point of both its RGB
space and its Luma standard. -/
theorem all_standards_use_d65 :
    ∀ s : Standard,
      RgbSpace.whitePoint s = .D65 ∧ LumaStandard.whitePoint s = .D65 := by
  intro s
  cases s <;> exact ⟨rfl, rfl⟩

end Palette
